import Mathlib

/-!
Shallow embedding of `scripts/results_verification.py`: a verification gate
for a single JSON test report.  Pure Python functions become Lean functions;
Python exceptions become an explicit `Except` with an exception kind; console
output becomes an accumulated list of printed lines; the process outcome of
`main` (normal return, `exit(1)`, or an unhandled exception) becomes an
`Outcome` value.  Byte counts and the size limit are modelled as rationals:
the divisions by 1024 in the script are exact in binary floating point for
any realistic file size, so `ℚ` is faithful here.
-/

namespace ResultsVerification

/-- The Python exception kinds that can arise in the script. -/
inductive PyExc where
  | typeError
  | keyError
  | fileNotFoundError
  | jsonDecodeError
  | assertionError (msg : String)
deriving DecidableEq, Repr

/-- One entry of the remote daily-versions index (`versions.json`): recent
entries are JSON objects (modelled as association lists of string fields),
older legacy entries are bare strings. -/
inductive VerEntry where
  | dict (fields : List (String × String))
  | str (s : String)
deriving DecidableEq, Repr

/-- Python `fields[key]` lookup on a parsed JSON object, as an `Option`. -/
def pyGet (fields : List (String × String)) (key : String) : Option String :=
  (fields.find? (fun kv => kv.1 == key)).map (fun kv => kv.2)

/-- Python `entry['version']`: on a dict it yields the binding or raises
`KeyError` when the key is absent; subscripting a bare string with a string
key raises `TypeError`. -/
def subscriptVersion : VerEntry → Except PyExc String
  | VerEntry.dict fields =>
      match pyGet fields "version" with
      | some v => Except.ok v
      | none => Except.error PyExc.keyError
  | VerEntry.str _ => Except.error PyExc.typeError

/-- The `for entry in reversed(ver_data)` loop of `check_version_exists`,
applied to the already-reversed list: return `True` on the first entry whose
`'version'` field equals `zephyr`, `False` when the list is exhausted, and
propagate the exception of a failing subscript. -/
def scanVersions (zephyr : String) : List VerEntry → Except PyExc Bool
  | [] => Except.ok false
  | e :: rest =>
      match subscriptVersion e with
      | Except.ok v => if zephyr == v then Except.ok true else scanVersions zephyr rest
      | Except.error exc => Except.error exc

/-- `check_version_exists(zephyr)` after a successful fetch and parse of the
index: scan the reversed index; `except TypeError: return False` catches
exactly the `TypeError` of subscripting a legacy bare-string entry, while any
other exception (notably `KeyError`) propagates. -/
def check_version_exists (zephyr : String) (ver_data : List VerEntry) : Except PyExc Bool :=
  match scanVersions zephyr ver_data.reverse with
  | Except.ok b => Except.ok b
  | Except.error PyExc.typeError => Except.ok false
  | Except.error e => Except.error e

/-- `check_file_size(file_path, max_size)`: `st_size` is the file size in
bytes; the function divides it by 1024 twice and compares with `max_size`. -/
def check_file_size (st_size : ℚ) (max_size : ℚ) : Bool :=
  decide (st_size / 1024 / 1024 ≤ max_size)

/-- One testsuite record of the report, with the two fields the script
reads. -/
structure TestSuite where
  platform : String
  name : String
deriving DecidableEq, Repr

/-- The diagnostic line `check_name` prints for one mismatching testsuite. -/
def mismatchLine (platform_name : String) (ts : TestSuite) : String :=
  "Platform " ++ ts.platform ++ " from " ++ ts.name ++
    " doesn\x27t match the required one: " ++ platform_name

/-- `check_name(platform_name, report)`: count the testsuites whose
`platform` differs from `platform_name`, printing one diagnostic line per
mismatch.  The `for`/`else` of the source sets `all_scanned = True`
unconditionally (the loop has no `break`), so the result is simply
`err_cnt == 0`.  Returns the boolean together with the printed lines. -/
def check_name (platform_name : String) (testsuites : List TestSuite) : Bool × List String :=
  let scan := testsuites.foldl
    (fun acc ts =>
      if ts.platform != platform_name then
        (acc.1 + 1, acc.2 ++ [mismatchLine platform_name ts])
      else acc)
    ((0 : Nat), ([] : List String))
  let all_scanned := true
  let all_clear := all_scanned && (scan.1 == 0)
  (all_clear, scan.2)

/-- `check_version_consistent(report, version)`: compare
`report['environment']['zephyr_version']` (passed here as `zephyr_version`)
with the expected `version`; on mismatch print `Version not found.` and
return `False`. -/
def check_version_consistent (zephyr_version : String) (version : String) : Bool × List String :=
  if zephyr_version == version then (true, [])
  else (false, ["Version not found."])

/-- The parts of the parsed JSON report that the script reads:
`report['testsuites']` and `report['environment']['zephyr_version']`. -/
structure Report where
  testsuites : List TestSuite
  zephyr_version : String
deriving DecidableEq, Repr

/-- The command-line configuration built by `parse_args`. -/
structure Config where
  path : String
  zephyr : String
  max_size : ℚ
deriving DecidableEq, Repr

/-- The environment `main` runs in: the observable attributes of
`Path(args.path)` (existence, `.suffix`, `.stem`, `.stat().st_size` in
bytes), the result of `json.load` on the file (`none` models a
`json.JSONDecodeError`), and the successfully fetched and parsed remote
version index. -/
structure World where
  pathExists : Bool
  suffix : String
  stem : String
  parsed : Option Report
  st_size : ℚ
  verIndex : List VerEntry
deriving DecidableEq, Repr

/-- How the process ends: `main` returns a status code, `exit(1)` is called,
or an exception leaves `main` unhandled.  Each carries the lines the program
printed to standard output. -/
inductive Outcome where
  | returned (code : Nat) (output : List String)
  | exited (code : Nat) (output : List String)
  | raised (exc : PyExc) (output : List String)
deriving DecidableEq, Repr

/-- Whether the outcome is the uniform assertion path: `exit(1)` after
printing the assertion message. -/
def Outcome.isExit1 : Outcome → Bool
  | Outcome.exited 1 _ => true
  | _ => false

/-- Python arithmetic on a `bool`: `True` is `1`, `False` is `0`. -/
def pyFloatOfBool (b : Bool) : ℚ := if b then 1 else 0

/-- Python truthiness of a number: nonzero is truthy.  `assert x` passes
exactly when `x` is truthy. -/
def pyTruthy (x : ℚ) : Bool := decide (x ≠ 0)

/-- The message of the size assertion in `main` (Python renders
`args.max_size` with `str`; `toString` stands in for that rendering). -/
def sizeMessage (cfg : Config) : String :=
  "Size of the JSON report at " ++ cfg.path ++ " is >" ++ toString cfg.max_size ++ " Mb"

/-- The `try` block of `main`: the extension assertion, `json.load`, and the
four content assertions in source order.  Produces the lines printed inside
the block and either success or the exception that left it.  The size
assertion divides the boolean result of `check_file_size` by 1024 twice, as
the source does. -/
def tryBody (cfg : Config) (w : World) : List String × Except PyExc Unit :=
  if w.suffix != ".json" then
    ([], Except.error (PyExc.assertionError "Not a JSON file given"))
  else
    match w.parsed with
    | none => ([], Except.error PyExc.jsonDecodeError)
    | some report =>
      match check_version_exists cfg.zephyr w.verIndex with
      | Except.error e => ([], Except.error e)
      | Except.ok ve =>
        if ve = false then
          ([], Except.error (PyExc.assertionError "Given version of zephyr is not on the daily list"))
        else
          let nameRes := check_name w.stem report.testsuites
          if nameRes.1 = false then
            (nameRes.2, Except.error (PyExc.assertionError
              "Report name does not match the platform name given in the report"))
          else
            let verRes := check_version_consistent report.zephyr_version cfg.zephyr
            if verRes.1 = false then
              (nameRes.2 ++ verRes.2, Except.error (PyExc.assertionError "Incorrect version of zephyr"))
            else
              if pyTruthy (pyFloatOfBool (check_file_size w.st_size cfg.max_size) / 1024 / 1024) then
                (nameRes.2 ++ verRes.2, Except.ok ())
              else
                (nameRes.2 ++ verRes.2, Except.error (PyExc.assertionError (sizeMessage cfg)))

/-- `main(args)`: the existence check (printing its message and raising
`FileNotFoundError` on a missing file), then the `try` block with
`except AssertionError` printing the assertion message and calling
`exit(1)`; every other exception leaves `main` unhandled.  On success the
confirmation line is printed and `0` returned. -/
def main (cfg : Config) (w : World) : Outcome :=
  if w.pathExists = false then
    Outcome.raised PyExc.fileNotFoundError ["JSON report not found at " ++ cfg.path]
  else
    match tryBody cfg w with
    | (out, Except.ok _) => Outcome.returned 0 (out ++ ["Report " ++ cfg.path ++ " verified."])
    | (out, Except.error (PyExc.assertionError msg)) => Outcome.exited 1 (out ++ [msg])
    | (out, Except.error e) => Outcome.raised e out

/-- Spec-side variant of the `try` block (spec sections 4.4 and 4.6): the
size gate asserts `check_file_size` directly, without dividing the boolean
result by 1024 twice.  Identical to `tryBody` otherwise; used only to state
that the arithmetic-on-boolean artifact does not change behaviour. -/
def tryBodyDirect (cfg : Config) (w : World) : List String × Except PyExc Unit :=
  if w.suffix != ".json" then
    ([], Except.error (PyExc.assertionError "Not a JSON file given"))
  else
    match w.parsed with
    | none => ([], Except.error PyExc.jsonDecodeError)
    | some report =>
      match check_version_exists cfg.zephyr w.verIndex with
      | Except.error e => ([], Except.error e)
      | Except.ok ve =>
        if ve = false then
          ([], Except.error (PyExc.assertionError "Given version of zephyr is not on the daily list"))
        else
          let nameRes := check_name w.stem report.testsuites
          if nameRes.1 = false then
            (nameRes.2, Except.error (PyExc.assertionError
              "Report name does not match the platform name given in the report"))
          else
            let verRes := check_version_consistent report.zephyr_version cfg.zephyr
            if verRes.1 = false then
              (nameRes.2 ++ verRes.2, Except.error (PyExc.assertionError "Incorrect version of zephyr"))
            else
              if check_file_size w.st_size cfg.max_size then
                (nameRes.2 ++ verRes.2, Except.ok ())
              else
                (nameRes.2 ++ verRes.2, Except.error (PyExc.assertionError (sizeMessage cfg)))

/-- Spec-side variant of `main` built on `tryBodyDirect`. -/
def mainDirectSize (cfg : Config) (w : World) : Outcome :=
  if w.pathExists = false then
    Outcome.raised PyExc.fileNotFoundError ["JSON report not found at " ++ cfg.path]
  else
    match tryBodyDirect cfg w with
    | (out, Except.ok _) => Outcome.returned 0 (out ++ ["Report " ++ cfg.path ++ " verified."])
    | (out, Except.error (PyExc.assertionError msg)) => Outcome.exited 1 (out ++ [msg])
    | (out, Except.error e) => Outcome.raised e out

/-- Whether an index entry is a JSON object (a Python dict). -/
def VerEntry.isDict : VerEntry → Bool
  | VerEntry.dict _ => true
  | VerEntry.str _ => false

/-- Whether an index entry has the shape the index documents: a dict with a
`'version'` field, or a legacy bare string. -/
def entryWellFormed : VerEntry → Bool
  | VerEntry.dict fields => (pyGet fields "version").isSome
  | VerEntry.str _ => true

/-- Whether an index entry is a dict whose `'version'` field equals the
expected version (the comparison orientation of the source,
`zephyr == entry['version']`). -/
def entryMatches (zephyr : String) : VerEntry → Bool
  | VerEntry.dict fields =>
      match pyGet fields "version" with
      | some v => zephyr == v
      | none => false
  | VerEntry.str _ => false

end ResultsVerification

namespace ResultsVerification

/-! ## Helper lemmas -/

lemma check_name_foldl (p : String) (l : List TestSuite) :
    ∀ (cnt : Nat) (msgs : List String),
      l.foldl
        (fun acc ts =>
          if ts.platform = p then acc else (acc.1 + 1, acc.2 ++ [mismatchLine p ts]))
        (cnt, msgs) =
      (cnt + (l.filter (fun ts => ts.platform != p)).length,
       msgs ++ (l.filter (fun ts => ts.platform != p)).map (mismatchLine p)) := by
  induction l with
  | nil => intro cnt msgs; simp
  | cons ts rest ih =>
    intro cnt msgs
    by_cases h : ts.platform = p
    · simp only [List.foldl_cons, if_pos h, ih, List.filter_cons]
      have hb : (ts.platform != p) = false := by simp [h]
      simp [hb]
    · simp only [List.foldl_cons, if_neg h, ih, List.filter_cons]
      have hb : (ts.platform != p) = true := by simp [h]
      simp [hb, List.append_assoc]
      omega

lemma check_name_fst (p : String) (l : List TestSuite) :
    (check_name p l).1 = ((l.filter (fun ts => ts.platform != p)).length == 0) := by
  simp [check_name, check_name_foldl]

lemma check_name_snd (p : String) (l : List TestSuite) :
    (check_name p l).2 = (l.filter (fun ts => ts.platform != p)).map (mismatchLine p) := by
  simp [check_name, check_name_foldl]

lemma check_name_true_iff (p : String) (l : List TestSuite) :
    (check_name p l).1 = true ↔ ∀ ts ∈ l, ts.platform = p := by
  simp [check_name_fst, List.length_eq_zero, List.filter_eq_nil_iff]

lemma check_name_all_match (p : String) (l : List TestSuite)
    (h : ∀ ts ∈ l, ts.platform = p) : check_name p l = (true, []) := by
  have h1 : (check_name p l).1 = true := (check_name_true_iff p l).mpr h
  have h2 : (check_name p l).2 = [] := by
    rw [check_name_snd]
    have hfil : l.filter (fun ts => ts.platform != p) = [] := by
      rw [List.filter_eq_nil_iff]
      intro a ha
      simp [h a ha]
    simp [hfil]
  exact Prod.ext h1 h2

lemma check_name_pass_no_output (p : String) (l : List TestSuite)
    (h : (check_name p l).1 = true) : (check_name p l).2 = [] := by
  rw [check_name_snd]
  have hall := (check_name_true_iff p l).mp h
  have hfil : l.filter (fun ts => ts.platform != p) = [] := by
    rw [List.filter_eq_nil_iff]
    intro a ha
    simp [hall a ha]
  simp [hfil]

lemma scanVersions_append_skip (z : String) (l rest : List VerEntry)
    (h : ∀ e ∈ l, VerEntry.isDict e = true ∧ entryWellFormed e = true ∧
      entryMatches z e = false) :
    scanVersions z (l ++ rest) = scanVersions z rest := by
  induction l with
  | nil => simp
  | cons e l ih =>
    obtain ⟨hd, hw, hm⟩ := h e (List.mem_cons_self e l)
    cases e with
    | str s => simp [VerEntry.isDict] at hd
    | dict fields =>
      obtain ⟨v, hv⟩ : ∃ v, pyGet fields "version" = some v := by
        simpa [entryWellFormed, Option.isSome_iff_exists] using hw
      have hne : (z == v) = false := by
        simpa [entryMatches, hv] using hm
      simp only [List.cons_append, scanVersions, subscriptVersion, hv, hne]
      exact ih (fun e he => h e (List.mem_cons_of_mem _ he))

lemma scanVersions_wf (z : String) (l : List VerEntry)
    (h : ∀ e ∈ l, entryWellFormed e = true) :
    scanVersions z l = Except.ok ((l.takeWhile VerEntry.isDict).any (entryMatches z)) ∨
    (scanVersions z l = Except.error PyExc.typeError ∧
      (l.takeWhile VerEntry.isDict).any (entryMatches z) = false) := by
  induction l with
  | nil => left; simp [scanVersions]
  | cons e l ih =>
    cases e with
    | str s =>
      right
      constructor
      · simp [scanVersions, subscriptVersion]
      · simp [List.takeWhile, VerEntry.isDict]
    | dict fields =>
      obtain ⟨v, hv⟩ : ∃ v, pyGet fields "version" = some v := by
        simpa [entryWellFormed, Option.isSome_iff_exists] using
          h _ (List.mem_cons_self _ l)
      have htk : ((VerEntry.dict fields :: l).takeWhile VerEntry.isDict).any (entryMatches z) =
          ((z == v) || (l.takeWhile VerEntry.isDict).any (entryMatches z)) := by
        simp [List.takeWhile, VerEntry.isDict, entryMatches, hv]
      cases hzv : (z == v) with
      | true =>
        left
        simp [scanVersions, subscriptVersion, hv, hzv, htk]
      | false =>
        rcases ih (fun e he => h e (List.mem_cons_of_mem _ he)) with h1 | ⟨h1, h2⟩
        · left
          simp [scanVersions, subscriptVersion, hv, hzv, htk, h1]
        · right
          constructor
          · simp [scanVersions, subscriptVersion, hv, hzv, h1]
          · simp [htk, hzv, h2]

lemma pyTruthy_sizeGate (b : Bool) :
    pyTruthy (pyFloatOfBool b / 1024 / 1024) = b := by
  cases b <;> norm_num [pyTruthy, pyFloatOfBool]

/-! ## Claim theorems -/

/-- C1 (amended): on an index whose entries are all well formed (each a dict
carrying a `'version'` field or a legacy bare string), `check_version_exists`
raises nothing and returns true exactly when a matching dict occurs among the
dict entries scanned before the first bare-string entry, scanning from the
last entry of the index to the first.  A matching dict lying beyond a
bare-string entry in scan order is never examined. -/
theorem C1_version_exists_scan (zephyr : String) (index : List VerEntry)
    (h : ∀ e ∈ index, entryWellFormed e = true) :
    check_version_exists zephyr index =
      Except.ok ((index.reverse.takeWhile VerEntry.isDict).any (entryMatches zephyr)) := by
  have h' : ∀ e ∈ index.reverse, entryWellFormed e = true := fun e he =>
    h e (List.mem_reverse.mp he)
  rcases scanVersions_wf zephyr index.reverse h' with h1 | ⟨h1, h2⟩
  · simp [check_version_exists, h1]
  · simp [check_version_exists, h1, h2]

/-- C1 witness: a matching dict at the end of the index (scanned first) is
found, past a legacy entry earlier in the list. -/
theorem C1_scan_witness :
    check_version_exists "v3.5.0"
      [VerEntry.str "legacy", VerEntry.dict [("version", "v3.5.0")]] = Except.ok true := by
  rw [C1_version_exists_scan "v3.5.0"
    [VerEntry.str "legacy", VerEntry.dict [("version", "v3.5.0")]] (by decide)]
  rfl

/-- C1 counterexample: this index holds a dict entry whose `'version'` field
equals the expected version, yet `check_version_exists` returns false: the
reversed scan meets the legacy bare-string entry first and the caught
`TypeError` ends the run, so the matching entry is never examined. -/
theorem C1_counterexample :
    check_version_exists "v3.5.0"
      [VerEntry.dict [("version", "v3.5.0")], VerEntry.str "v3.4.0"] = Except.ok false ∧
    ([VerEntry.dict [("version", "v3.5.0")], VerEntry.str "v3.4.0"]).any
      (entryMatches "v3.5.0") = true := ⟨rfl, rfl⟩

/-- C2 (amended): the gates run in the fixed source order (existence,
extension, parse, remote version, platform name, version consistency, size)
and the first failure short-circuits.  The extension and the four content
gates print their assertion message (after any per-check diagnostic lines)
and exit with status 1; a missing file prints its missing-file line but ends
in an unhandled `FileNotFoundError`, and a parse failure ends in an unhandled
`JSONDecodeError` with no program-printed message.  When every gate passes
the run returns 0 with the confirmation line. -/
theorem C2_gate_order (cfg : Config) (w : World) :
    (w.pathExists = false →
      main cfg w = Outcome.raised PyExc.fileNotFoundError
        ["JSON report not found at " ++ cfg.path]) ∧
    (w.pathExists = true → w.suffix ≠ ".json" →
      main cfg w = Outcome.exited 1 ["Not a JSON file given"]) ∧
    (w.pathExists = true → w.suffix = ".json" → w.parsed = none →
      main cfg w = Outcome.raised PyExc.jsonDecodeError []) ∧
    (∀ report, w.pathExists = true → w.suffix = ".json" → w.parsed = some report →
      check_version_exists cfg.zephyr w.verIndex = Except.ok false →
      main cfg w = Outcome.exited 1 ["Given version of zephyr is not on the daily list"]) ∧
    (∀ report, w.pathExists = true → w.suffix = ".json" → w.parsed = some report →
      check_version_exists cfg.zephyr w.verIndex = Except.ok true →
      (check_name w.stem report.testsuites).1 = false →
      main cfg w = Outcome.exited 1 ((check_name w.stem report.testsuites).2 ++
        ["Report name does not match the platform name given in the report"])) ∧
    (∀ report, w.pathExists = true → w.suffix = ".json" → w.parsed = some report →
      check_version_exists cfg.zephyr w.verIndex = Except.ok true →
      (check_name w.stem report.testsuites).1 = true →
      report.zephyr_version ≠ cfg.zephyr →
      main cfg w = Outcome.exited 1 ["Version not found.", "Incorrect version of zephyr"]) ∧
    (∀ report, w.pathExists = true → w.suffix = ".json" → w.parsed = some report →
      check_version_exists cfg.zephyr w.verIndex = Except.ok true →
      (check_name w.stem report.testsuites).1 = true →
      report.zephyr_version = cfg.zephyr →
      check_file_size w.st_size cfg.max_size = false →
      main cfg w = Outcome.exited 1 [sizeMessage cfg]) ∧
    (∀ report, w.pathExists = true → w.suffix = ".json" → w.parsed = some report →
      check_version_exists cfg.zephyr w.verIndex = Except.ok true →
      (check_name w.stem report.testsuites).1 = true →
      report.zephyr_version = cfg.zephyr →
      check_file_size w.st_size cfg.max_size = true →
      main cfg w = Outcome.returned 0 ["Report " ++ cfg.path ++ " verified."]) := by
  refine ⟨?_, ?_, ?_, ?_, ?_, ?_, ?_, ?_⟩
  · intro h
    simp [main, h]
  · intro h1 h2
    have hb : (w.suffix != ".json") = true := by simpa using h2
    simp [main, tryBody, h1, hb]
  · intro h1 h2 h3
    simp [main, tryBody, h1, h2, h3]
  · intro report h1 h2 h3 h4
    simp [main, tryBody, h1, h2, h3, h4]
  · intro report h1 h2 h3 h4 h5
    simp [main, tryBody, h1, h2, h3, h4, h5]
  · intro report h1 h2 h3 h4 h5 h6
    simp [main, tryBody, h1, h2, h3, h4, h5, check_name_pass_no_output _ _ h5,
      check_version_consistent, h6]
  · intro report h1 h2 h3 h4 h5 h6 h7
    simp [main, tryBody, h1, h2, h3, h4, h5, check_name_pass_no_output _ _ h5,
      check_version_consistent, h6, pyTruthy_sizeGate, h7]
  · intro report h1 h2 h3 h4 h5 h6 h7
    simp [main, tryBody, h1, h2, h3, h4, h5, check_name_pass_no_output _ _ h5,
      check_version_consistent, h6, pyTruthy_sizeGate, h7]

/-- C2 counterexample: with the report file present, carrying the `.json`
extension but holding unparseable content, the run does not print a gate
message and exit with status 1: it ends in an unhandled `JSONDecodeError`
with no program output. -/
theorem C2_counterexample :
    main { path := "report.json", zephyr := "v3.5.0", max_size := 5 }
      { pathExists := true, suffix := ".json", stem := "report",
        parsed := none, st_size := 0, verIndex := [] } =
      Outcome.raised PyExc.jsonDecodeError [] ∧
    Outcome.isExit1
      (main { path := "report.json", zephyr := "v3.5.0", max_size := 5 }
        { pathExists := true, suffix := ".json", stem := "report",
          parsed := none, st_size := 0, verIndex := [] }) = false := ⟨rfl, rfl⟩

/-- C3: `check_name` returns true exactly when every testsuite of the report
carries the expected platform (vacuously true on an empty list), and prints
exactly one diagnostic line, naming the offending suite and its platform,
per mismatching entry. -/
theorem C3_check_name_characterization (platform_name : String) (suites : List TestSuite) :
    ((check_name platform_name suites).1 = true ↔
      ∀ ts ∈ suites, ts.platform = platform_name) ∧
    (check_name platform_name suites).2 =
      (suites.filter (fun ts => ts.platform != platform_name)).map
        (mismatchLine platform_name) ∧
    check_name platform_name ([] : List TestSuite) = (true, []) :=
  ⟨check_name_true_iff _ _, check_name_snd _ _, rfl⟩

/-- C4: dividing the boolean result of `check_file_size` by 1024 twice keeps
its truthiness, so the size assertion of `main` accepts exactly the runs that
asserting `check_file_size` directly would accept: `main` and the spec-side
`mainDirectSize` agree on every input. -/
theorem C4_size_gate_refinement (cfg : Config) (w : World) :
    pyTruthy (pyFloatOfBool (check_file_size w.st_size cfg.max_size) / 1024 / 1024) =
      check_file_size w.st_size cfg.max_size ∧
    mainDirectSize cfg w = main cfg w := by
  refine ⟨pyTruthy_sizeGate _, ?_⟩
  have htb : tryBodyDirect cfg w = tryBody cfg w := by
    simp only [tryBody, tryBodyDirect, pyTruthy_sizeGate]
  simp [main, mainDirectSize, htb]

/-- C5: `check_file_size` holds exactly when the byte count divided by 1024
twice is at most the limit, and a file exactly at the limit passes. -/
theorem C5_check_file_size_spec (s m : ℚ) :
    (check_file_size s m = true ↔ s / 1024 / 1024 ≤ m) ∧
    check_file_size (m * 1024 * 1024) m = true := by
  constructor
  · simp [check_file_size]
  · have h : m * 1024 * 1024 / 1024 / 1024 = m := by ring
    simp [check_file_size, h]

/-- C6: `check_version_consistent` returns true exactly when the version in
the report environment equals the expected one; on mismatch it prints
`Version not found.` and returns false, after which `main` (with the earlier
gates passing) prints the assertion message `Incorrect version of zephyr`
and exits with status 1, its output being exactly those two lines. -/
theorem C6_version_consistent_gate (rv v : String) (cfg : Config) (w : World)
    (report : Report)
    (hw : w.pathExists = true) (hs : w.suffix = ".json") (hp : w.parsed = some report)
    (hv : check_version_exists cfg.zephyr w.verIndex = Except.ok true)
    (hn : (check_name w.stem report.testsuites).1 = true) :
    ((check_version_consistent rv v).1 = true ↔ rv = v) ∧
    (rv ≠ v → check_version_consistent rv v = (false, ["Version not found."])) ∧
    (report.zephyr_version ≠ cfg.zephyr →
      main cfg w = Outcome.exited 1 ["Version not found.", "Incorrect version of zephyr"]) := by
  refine ⟨?_, ?_, ?_⟩
  · by_cases h : rv = v <;> simp [check_version_consistent, h]
  · intro h
    simp [check_version_consistent, h]
  · intro h
    simp [main, tryBody, hw, hs, hp, hv, hn, check_name_pass_no_output _ _ hn,
      check_version_consistent, h]

/-- C6 witness: a report recording `v3.4.0` against expected `v3.5.0` makes
the run print `Version not found.` then `Incorrect version of zephyr` and
exit 1. -/
theorem C6_gate_witness :
    main ({ path := "a.json", zephyr := "v3.5.0", max_size := 5 } : Config)
      ({ pathExists := true, suffix := ".json", stem := "a",
         parsed := some { testsuites := [], zephyr_version := "v3.4.0" },
         st_size := 1, verIndex := [VerEntry.dict [("version", "v3.5.0")]] } : World) =
      Outcome.exited 1 ["Version not found.", "Incorrect version of zephyr"] :=
  (C6_version_consistent_gate "v3.4.0" "v3.5.0"
    ({ path := "a.json", zephyr := "v3.5.0", max_size := 5 } : Config)
    ({ pathExists := true, suffix := ".json", stem := "a",
       parsed := some { testsuites := [], zephyr_version := "v3.4.0" },
       st_size := 1, verIndex := [VerEntry.dict [("version", "v3.5.0")]] } : World)
    ({ testsuites := [], zephyr_version := "v3.4.0" } : Report)
    rfl rfl rfl rfl rfl).2.2 (by decide)

/-- C7: a legacy bare-string entry met during the reversed scan (after any
block of well-formed non-matching dict entries) never propagates an error
out of `check_version_exists`: the function returns false, whatever lies
beyond the string entry. -/
theorem C7_legacy_entry_no_propagation (zephyr s : String) (older newer : List VerEntry)
    (h : ∀ e ∈ newer, VerEntry.isDict e = true ∧ entryWellFormed e = true ∧
      entryMatches zephyr e = false) :
    check_version_exists zephyr (older ++ VerEntry.str s :: newer) = Except.ok false := by
  have h' : ∀ e ∈ newer.reverse, VerEntry.isDict e = true ∧ entryWellFormed e = true ∧
      entryMatches zephyr e = false := fun e he => h e (List.mem_reverse.mp he)
  have hscan : scanVersions zephyr (newer.reverse ++ (VerEntry.str s :: older.reverse)) =
      Except.error PyExc.typeError := by
    rw [scanVersions_append_skip zephyr _ _ h']
    simp [scanVersions, subscriptVersion]
  simp [check_version_exists, hscan]

/-- C7 witness: the scan runs past a non-matching recent dict, hits the
legacy string, and returns false although an older matching dict exists. -/
theorem C7_legacy_witness :
    check_version_exists "v2"
      [VerEntry.dict [("version", "v2")], VerEntry.str "v1",
        VerEntry.dict [("version", "v3")]] = Except.ok false :=
  C7_legacy_entry_no_propagation "v2" "v1" [VerEntry.dict [("version", "v2")]]
    [VerEntry.dict [("version", "v3")]] (by decide)

/-- C8: when the report file exists with the `.json` extension, parses, the
expected version is found on the daily list, every testsuite carries the
platform equal to the filename stem, the report records the expected version
and the size is within the limit, `main` prints the confirmation line and
returns 0. -/
theorem C8_success_path (cfg : Config) (w : World) (report : Report)
    (hw : w.pathExists = true) (hs : w.suffix = ".json") (hp : w.parsed = some report)
    (hv : check_version_exists cfg.zephyr w.verIndex = Except.ok true)
    (hn : ∀ ts ∈ report.testsuites, ts.platform = w.stem)
    (hz : report.zephyr_version = cfg.zephyr)
    (hsize : w.st_size / 1024 / 1024 ≤ cfg.max_size) :
    main cfg w = Outcome.returned 0 ["Report " ++ cfg.path ++ " verified."] := by
  have hname := check_name_all_match w.stem report.testsuites hn
  have hfs : check_file_size w.st_size cfg.max_size = true := by
    simp [check_file_size, hsize]
  simp [main, tryBody, hw, hs, hp, hv, hname, check_version_consistent, hz,
    pyTruthy_sizeGate, hfs]

/-- C8 witness: the spec scenario — `qemu_x86.json`, matching platform and
version, 2 MiB under a 5 MiB limit — is verified with exit status 0. -/
theorem C8_success_witness :
    main ({ path := "qemu_x86.json", zephyr := "v3.5.0", max_size := 5 } : Config)
      ({ pathExists := true, suffix := ".json", stem := "qemu_x86",
         parsed := some { testsuites := [TestSuite.mk "qemu_x86" "ts1"],
                          zephyr_version := "v3.5.0" },
         st_size := 2 * 1024 * 1024,
         verIndex := [VerEntry.dict [("version", "v3.5.0")]] } : World) =
      Outcome.returned 0 ["Report " ++ "qemu_x86.json" ++ " verified."] :=
  C8_success_path _ _ _ rfl rfl rfl rfl (by decide) rfl (by norm_num)

/-- C9: with the report file absent, `main` prints the missing-file line and
ends in an unhandled `FileNotFoundError` — not the assertion exit path — and
no later gate contributes anything, whatever the rest of the world holds. -/
theorem C9_missing_file_gate (cfg : Config) (w : World) (h : w.pathExists = false) :
    main cfg w = Outcome.raised PyExc.fileNotFoundError
      ["JSON report not found at " ++ cfg.path] ∧
    Outcome.isExit1 (main cfg w) = false := by
  constructor
  · simp [main, h]
  · simp [main, h, Outcome.isExit1]

/-- C9 witness: a concrete missing report. -/
theorem C9_missing_witness :
    main ({ path := "missing.json", zephyr := "v1", max_size := 5 } : Config)
      ({ pathExists := false, suffix := ".json", stem := "missing",
         parsed := none, st_size := 0, verIndex := [] } : World) =
      Outcome.raised PyExc.fileNotFoundError ["JSON report not found at " ++ "missing.json"] ∧
    Outcome.isExit1
      (main ({ path := "missing.json", zephyr := "v1", max_size := 5 } : Config)
        ({ pathExists := false, suffix := ".json", stem := "missing",
           parsed := none, st_size := 0, verIndex := [] } : World)) = false :=
  C9_missing_file_gate _ _ rfl

/-- C10: the `except TypeError` of `check_version_exists` covers only
non-dict entries; a dict entry lacking the `'version'` key raises `KeyError`,
which propagates out of the function, and through `main`, ending the process
abnormally instead of being skipped or treated as a non-match. -/
theorem C10_missing_version_key (cfg : Config) (w : World) (report : Report)
    (older newer : List VerEntry) (fields : List (String × String))
    (hnew : ∀ e ∈ newer, VerEntry.isDict e = true ∧ entryWellFormed e = true ∧
      entryMatches cfg.zephyr e = false)
    (hf : pyGet fields "version" = none)
    (hw : w.pathExists = true) (hs : w.suffix = ".json") (hp : w.parsed = some report)
    (hv : w.verIndex = older ++ VerEntry.dict fields :: newer) :
    check_version_exists cfg.zephyr w.verIndex = Except.error PyExc.keyError ∧
    main cfg w = Outcome.raised PyExc.keyError [] := by
  have h' : ∀ e ∈ newer.reverse, VerEntry.isDict e = true ∧ entryWellFormed e = true ∧
      entryMatches cfg.zephyr e = false := fun e he => hnew e (List.mem_reverse.mp he)
  have hscan : scanVersions cfg.zephyr (newer.reverse ++ (VerEntry.dict fields :: older.reverse)) =
      Except.error PyExc.keyError := by
    rw [scanVersions_append_skip cfg.zephyr _ _ h']
    simp [scanVersions, subscriptVersion, hf]
  have hcve : check_version_exists cfg.zephyr w.verIndex = Except.error PyExc.keyError := by
    simp [check_version_exists, hv, hscan]
  refine ⟨hcve, ?_⟩
  simp [main, tryBody, hw, hs, hp, hcve]

/-- C10 witness: an index entry that is a dict without a `'version'` key
crashes the run with `KeyError`. -/
theorem C10_missing_key_witness :
    check_version_exists "v9" [VerEntry.dict [("commit", "abc")]] =
      Except.error PyExc.keyError ∧
    main ({ path := "a.json", zephyr := "v9", max_size := 5 } : Config)
      ({ pathExists := true, suffix := ".json", stem := "a",
         parsed := some { testsuites := [], zephyr_version := "v9" },
         st_size := 1, verIndex := [VerEntry.dict [("commit", "abc")]] } : World) =
      Outcome.raised PyExc.keyError [] :=
  C10_missing_version_key
    ({ path := "a.json", zephyr := "v9", max_size := 5 } : Config)
    ({ pathExists := true, suffix := ".json", stem := "a",
       parsed := some { testsuites := [], zephyr_version := "v9" },
       st_size := 1, verIndex := [VerEntry.dict [("commit", "abc")]] } : World)
    ({ testsuites := [], zephyr_version := "v9" } : Report)
    [] [] [("commit", "abc")] (by simp) rfl rfl rfl rfl rfl

end ResultsVerification
